import Mathlib

/-!
Verification of the core of the cadence-client workflow test harness
(`internal_workflow_testsuite.go`), shallowly embedded in Lean 4.

The embedding models the shared scheduling state of a test workflow
environment (`testWorkflowEnvironmentImpl` / `testWorkflowEnvironmentShared`):
the mock clock and wall clock, the timer and activity registries, the
callback queue, the running count, and the operations on them
(`newTimer`, `RequestCancelTimer`, `RequestCancelActivity`, `Complete`,
`CompleteActivity`, `handleActivityResult`, `autoFireNextTimer`,
`ExecuteActivity`, the main loop iteration, and the mocked heartbeat
service call).  Go maps are modelled as association lists, `clock.Timer`
objects as entries in explicit stores so that stopping and leaking timers
is observable, callbacks as an inductive description of each closure the
source posts, and invoked user callbacks / listeners as emitted events.
-/

namespace CadenceTest

abbrev Bytes := List Nat

/-- Error values observed by the harness (`CanceledError`,
`ContinueAsNewError`, `TimeoutError`, application errors built by
`constructError`, `EntityNotExistsError`, `ErrActivityResultPending`). -/
inductive CadenceError where
  | canceled (details : Option Bytes)
  | continueAsNew
  | timeout
  | custom (reason : String) (details : Option Bytes)
  | entityNotExists
  | activityResultPending
deriving DecidableEq, Repr

/-- A timer object armed on the mock clock by `mockClock.AfterFunc` in
`newTimer`.  Its fire function deletes the timer handle and posts the
user callback (with `startDecisionTask = true`). -/
structure MockTimerObj where
  timerID : String
  fireAt : Int
  handler : Nat
  notifyListener : Bool
deriving DecidableEq, Repr

/-- A wall-clock guard armed by `wallClock.AfterFunc` in
`autoFireNextTimer`; identified by a serial `wid` so that stopping and
re-arming are observable even after the owning handle is deleted. -/
structure WallTimerObj where
  wid : Nat
  timerID : Nat
  fireAt : Int
  stopped : Bool
deriving DecidableEq, Repr

/-- `testTimerHandle`: user callbacks are identified by opaque `Nat`
handler ids; the `timer` field (mock-clock timer object) lives in the
environment's `mockTimers` store keyed by the timer's string id, and
`wallTimer` holds the serial of the armed wall-clock guard when non-nil. -/
structure TestTimerHandle where
  callback : Nat
  wallTimer : Option Nat
  duration : Int
  mockTimeToFire : Int
  wallTimeToFire : Int
  timerID : Nat
deriving DecidableEq, Repr

/-- `testActivityHandle`. -/
structure TestActivityHandle where
  callback : Nat
  activityType : String
deriving DecidableEq, Repr

/-- The three `Respond...Request` shapes an activity task execution can
produce (`shared.RespondActivityTaskCanceledRequest`,
`...FailedRequest`, `...CompletedRequest`). -/
inductive RespondRequest where
  | canceledReq (details : Option Bytes)
  | failedReq (reason : String) (details : Option Bytes)
  | completedReq (result : Option Bytes)
deriving DecidableEq, Repr

/-- The closures the source posts onto the callback channel, identified
by their construction site. -/
inductive TestCallback where
  /-- Posted by the mock-clock timer fire function in `newTimer`:
  runs `callback(nil, nil)` and the timer-fired listener. -/
  | timerFired (timerID : String) (handler : Nat) (notifyListener : Bool)
  /-- Posted by `RequestCancelTimer`: runs `callback(nil, NewCanceledError())`
  and the timer-cancelled listener. -/
  | timerCancelled (timerID : String) (handler : Nat)
  /-- Posted by `RequestCancelActivity`: runs `callback(nil, NewCanceledError())`
  and the activity-cancelled listener. -/
  | activityCancelled (activityID : String) (handler : Nat)
  /-- Posted by the wall-clock guard fire function in `autoFireNextTimer`:
  fires the timer if its handle is still registered. -/
  | wallFire (timerID : Nat)
  /-- Posted by `mockHeartbeatFn`: invokes the activity-heartbeat listener. -/
  | heartbeatNotify (activityID : String) (details : Bytes)
  /-- Posted by the activity goroutine in `ExecuteActivity`:
  runs `handleActivityResult`. -/
  | activityResultCb (activityID : String) (request : Option RespondRequest)
      (activityType : String)
  /-- Posted by `CompleteActivity`: looks up the handle, converts the
  result and runs `handleActivityResult`. -/
  | completeActivityCb (activityID : String) (data : Option Bytes)
      (err : Option CadenceError)
  /-- Posted by `Complete` of a child workflow onto the shared queue:
  delivers the child result to the parent. -/
  | childResult (workflowID : String) (handler : Nat) (result : Option Bytes)
      (err : Option CadenceError)
deriving DecidableEq, Repr

/-- `testCallbackHandle`. -/
structure TestCallbackHandle where
  callback : TestCallback
  startDecisionTask : Bool
deriving DecidableEq, Repr

/-- Observable effects of running an operation: user callbacks
(`resultHandler`s) being invoked, listeners firing, the dispatcher being
nudged, clock and timer-object manipulations. -/
inductive Event where
  | handlerInvoked (handler : Nat) (result : Option Bytes) (err : Option CadenceError)
  | timerScheduledListener (timerID : String) (duration : Int)
  | timerFiredListener (timerID : String)
  | timerCancelledListener (timerID : String)
  | activityCanceledListener (activityID : String)
  | activityCompletedListener (activityID : String) (result : Option Bytes)
      (err : Option CadenceError)
  | activityHeartbeatListener (activityID : String) (details : Bytes)
  | childWorkflowCompletedListener (workflowID : String) (result : Option Bytes)
      (err : Option CadenceError)
  | startDecisionTask
  | workflowCancelHandlerInvoked
  | stopWallTimer (wid : Nat)
  | armWallTimer (wid : Nat) (timerID : Nat) (fireAt : Int)
  | mockClockAdvanced (d : Int)
  | closeDoneChannel
  | launchActivityTask (activityID : String)
deriving DecidableEq, Repr

/-- The state of a test workflow environment: the shared scheduling state
(`testWorkflowEnvironmentShared`) together with the per-environment
completion fields of `testWorkflowEnvironmentImpl`.  The fields
`mintedIDs`, `timerMintedIDs` and `activityMintedIDs` are ghost
instrumentation recording every counter value consumed by `nextID` and
which ones became timer ids resp. auto-generated activity ids; they have
no effect on any operation's behaviour. -/
structure EnvState where
  counterID : Nat
  mintedIDs : List Nat
  timerMintedIDs : List Nat
  activityMintedIDs : List Nat
  mockNow : Int
  wallNow : Int
  runningCount : Int
  mockTimers : List MockTimerObj
  wallTimers : List WallTimerObj
  nextWid : Nat
  timers : List (String × TestTimerHandle)
  activities : List (String × TestActivityHandle)
  childWorkflows : List (String × Nat)
  callbackQueue : List TestCallbackHandle
  isTestCompleted : Bool
  testResult : Option Bytes
  testError : Option CadenceError
  doneChannelClosed : Bool
  workflowID : String
  isChild : Bool
  workflowCancelHandlerSet : Bool
  onTimerScheduledListenerSet : Bool
  onTimerFiredListenerSet : Bool
  onTimerCancelledListenerSet : Bool
  onActivityCanceledListenerSet : Bool
  onActivityCompletedListenerSet : Bool
  onActivityHeartbeatListenerSet : Bool
  onChildWorkflowCompletedListenerSet : Bool
deriving DecidableEq, Repr

/-! ### Association-list operations modelling Go maps -/

/-- Go map lookup `m[k]`. -/
def alookup {α : Type} (l : List (String × α)) (k : String) : Option α :=
  (l.find? (fun p => p.fst = k)).map Prod.snd

/-- Go `delete(m, k)`. -/
def aerase {α : Type} (l : List (String × α)) (k : String) : List (String × α) :=
  l.filter (fun p => p.fst ≠ k)

/-- Go map assignment `m[k] = v`. -/
def aset {α : Type} (l : List (String × α)) (k : String) (v : α) :
    List (String × α) :=
  if (l.find? (fun p => p.fst = k)).isSome then
    l.map (fun p => if p.fst = k then (k, v) else p)
  else
    l ++ [(k, v)]

theorem alookup_aerase {α : Type} (l : List (String × α)) (k : String) :
    alookup (aerase l k) k = none := by
  have h : List.find? (fun p => p.fst = k) (aerase l k) = none := by
    apply List.find?_eq_none.mpr
    intro p hp
    simp only [aerase, List.mem_filter, ne_eq, decide_not,
      Bool.not_eq_true', decide_eq_false_iff_not] at hp
    simp only [decide_eq_true_eq]
    exact hp.2
  unfold alookup
  rw [h]
  rfl

/-! ### Decimal string ids

`getStringID` embeds `fmt.Sprintf("%d", intID)` for the non-negative
ids minted by the environment's counter. -/

def digitChar (d : Nat) : Char := Char.ofNat (48 + d)

def getStringID (n : Nat) : String :=
  if n = 0 then "0" else String.mk (((Nat.digits 10 n).reverse).map digitChar)

/-! ### Timer selection (`autoFireNextTimer`, lines 462-471)

The Go loop over `env.timers` keeps the current candidate and replaces
it whenever the visited timer fires strictly earlier on the mock clock,
or at the same mock time with a strictly smaller integer id. -/

/-- The replacement test of the selection loop:
`t.mockTimeToFire.Before(next.mockTimeToFire) ||
 (Equal && t.timerID < next.timerID)`. -/
def timerLess (t next : TestTimerHandle) : Bool :=
  decide (t.mockTimeToFire < next.mockTimeToFire ∨
    (t.mockTimeToFire = next.mockTimeToFire ∧ t.timerID < next.timerID))

def pickNext (acc : TestTimerHandle) : List TestTimerHandle → TestTimerHandle
  | [] => acc
  | t :: ts => pickNext (if timerLess t acc then t else acc) ts

/-- The selection part of `autoFireNextTimer`: `nil` start, one pass over
the registry values.  Returns `none` exactly when the registry is empty
(the `len(env.timers) == 0` early return). -/
def findNextTimer : List TestTimerHandle → Option TestTimerHandle
  | [] => none
  | t :: ts => some (pickNext t ts)

/-- The ordering the selected timer is minimal for: earlier mock fire
time, or equal mock fire time and a no-larger integer id. -/
def lexLE (m t : TestTimerHandle) : Prop :=
  m.mockTimeToFire < t.mockTimeToFire ∨
    (m.mockTimeToFire = t.mockTimeToFire ∧ m.timerID ≤ t.timerID)

theorem lexLE_refl (t : TestTimerHandle) : lexLE t t :=
  Or.inr ⟨rfl, Nat.le_refl _⟩

theorem lexLE_trans {a b c : TestTimerHandle} (h1 : lexLE a b) (h2 : lexLE b c) :
    lexLE a c := by
  rcases h1 with h1 | ⟨e1, i1⟩
  · rcases h2 with h2 | ⟨e2, _⟩
    · exact Or.inl (lt_trans h1 h2)
    · exact Or.inl (e2 ▸ h1)
  · rcases h2 with h2 | ⟨e2, i2⟩
    · exact Or.inl (e1 ▸ h2)
    · exact Or.inr ⟨e1.trans e2, le_trans i1 i2⟩

theorem not_timerLess_iff (t m : TestTimerHandle) :
    timerLess t m = false ↔ lexLE m t := by
  simp only [timerLess, decide_eq_false_iff_not, lexLE, not_or, not_and, not_lt]
  omega

theorem timerLess_imp_lexLE {t m : TestTimerHandle} (h : timerLess t m = true) :
    lexLE t m := by
  simp only [timerLess, decide_eq_true_eq] at h
  rcases h with h | ⟨h1, h2⟩
  · exact Or.inl h
  · exact Or.inr ⟨h1, le_of_lt h2⟩

theorem pickNext_spec (l : List TestTimerHandle) :
    ∀ acc : TestTimerHandle,
      (pickNext acc l = acc ∨ pickNext acc l ∈ l) ∧
      lexLE (pickNext acc l) acc ∧
      (∀ t ∈ l, lexLE (pickNext acc l) t) := by
  induction l with
  | nil =>
    intro acc
    exact ⟨Or.inl rfl, lexLE_refl acc, by intro t ht; cases ht⟩
  | cons x xs ih =>
    intro acc
    by_cases hx : timerLess x acc = true
    · have h := ih x
      simp only [pickNext, hx, if_pos]
      refine ⟨?_, ?_, ?_⟩
      · rcases h.1 with h1 | h1
        · exact Or.inr (List.mem_cons.mpr (Or.inl h1))
        · exact Or.inr (List.mem_cons_of_mem x h1)
      · exact lexLE_trans h.2.1 (timerLess_imp_lexLE hx)
      · intro t ht
        rcases List.mem_cons.mp ht with rfl | ht'
        · exact h.2.1
        · exact h.2.2 t ht'
    · have hx' : timerLess x acc = false := Bool.eq_false_iff.mpr hx
      have h := ih acc
      simp only [pickNext, hx', if_neg, Bool.false_eq_true, not_false_iff]
      refine ⟨?_, h.2.1, ?_⟩
      · rcases h.1 with h1 | h1
        · exact Or.inl h1
        · exact Or.inr (List.mem_cons_of_mem x h1)
      · intro t ht
        rcases List.mem_cons.mp ht with rfl | ht'
        · exact lexLE_trans h.2.1 ((not_timerLess_iff t acc).mp hx')
        · exact h.2.2 t ht'

/-! ### Counter and callback posting -/

/-- `nextID` (lines 1063-1067), with ghost recording of the minted value. -/
def nextID (s : EnvState) : Nat × EnvState :=
  (s.counterID,
    { s with counterID := s.counterID + 1, mintedIDs := s.mintedIDs ++ [s.counterID] })

/-- `postCallback` (lines 524-526): send one `testCallbackHandle` on the
FIFO callback channel. -/
def postCallback (s : EnvState) (cb : TestCallback) (startDecisionTask : Bool) :
    EnvState :=
  { s with callbackQueue := s.callbackQueue ++ [⟨cb, startDecisionTask⟩] }

/-- `newTimer` (lines 965-990).  The `mockClock.AfterFunc` registration is
the `MockTimerObj` added to the mock-timer store; its fire function is
interpreted by `mockClockAdd`.  Ghost: records the minted id in
`timerMintedIDs`. -/
def newTimer (s : EnvState) (d : Int) (callback : Nat) (notifyListener : Bool) :
    EnvState × List Event × String :=
  let p := nextID s
  let n := p.fst
  let s1 := p.snd
  let tid := getStringID n
  let obj : MockTimerObj := ⟨tid, s1.mockNow + d, callback, notifyListener⟩
  let handle : TestTimerHandle :=
    { callback := callback, wallTimer := none, duration := d,
      mockTimeToFire := s1.mockNow + d, wallTimeToFire := s1.wallNow + d,
      timerID := n }
  let s2 := { s1 with
    mockTimers := s1.mockTimers ++ [obj],
    timers := aset s1.timers tid handle,
    timerMintedIDs := s1.timerMintedIDs ++ [n] }
  (s2,
    if notifyListener && s2.onTimerScheduledListenerSet then
      [Event.timerScheduledListener tid d]
    else [], tid)

/-- `RequestCancelTimer` (lines 546-562): if the id is unknown, do
nothing; otherwise delete the handle, stop the handle's mock-clock timer
(`timerHandle.timer.Stop()` — note the source does not touch
`wallTimer`), and post a callback delivering a cancelled-error to the
original callback with `startDecisionTask = true`. -/
def RequestCancelTimer (s : EnvState) (timerID : String) : EnvState :=
  match alookup s.timers timerID with
  | none => s
  | some timerHandle =>
    let s1 := { s with
      timers := aerase s.timers timerID,
      mockTimers := s.mockTimers.filter (fun o => o.timerID ≠ timerID) }
    postCallback s1 (.timerCancelled timerID timerHandle.callback) true

/-- `RequestCancelActivity` (lines 528-543): if the id is unknown, do
nothing; otherwise delete the handle and post a callback delivering a
cancelled-error to the stored callback with `startDecisionTask = true`. -/
def RequestCancelActivity (s : EnvState) (activityID : String) : EnvState :=
  match alookup s.activities activityID with
  | none => s
  | some handle =>
    let s1 := { s with activities := aerase s.activities activityID }
    postCallback s1 (.activityCancelled activityID handle.callback) true

/-! ### Workflow completion -/

/-- The error translation of `Complete` (lines 576-583): cancelled,
continue-as-new and timeout errors are kept; any other error is rebuilt
by `constructError(getErrorDetails(err))`.  The latter two functions are
outside this source file; modelled from the spec: a generic error is
reconstructed as an application error carrying a reason string and
details bytes. -/
def translateWorkflowError : CadenceError → CadenceError
  | .canceled d => .canceled d
  | .continueAsNew => .continueAsNew
  | .timeout => .timeout
  | .custom r d => .custom r d
  | .entityNotExists => .custom "EntityNotExistsError" none
  | .activityResultPending => .custom "ActivityResultPending" none

def isCanceledErr : Option CadenceError → Bool
  | some (.canceled _) => true
  | _ => false

/-- `Complete` (lines 564-603).  Already-completed environments return
immediately.  Otherwise: run the registered workflow-cancel handler on a
cancelled-error, set the completion flag, record result and translated
error, close the done channel, and for a child workflow still present in
the child registry, remove it and post the result callback onto the
shared queue with `startDecisionTask = true`. -/
def Complete (s : EnvState) (result : Option Bytes) (err : Option CadenceError) :
    EnvState × List Event :=
  if s.isTestCompleted then (s, [])
  else
    let cancelEvents :=
      if isCanceledErr err && s.workflowCancelHandlerSet then
        [Event.workflowCancelHandlerInvoked]
      else []
    let s1 := { s with
      isTestCompleted := true,
      testResult := result,
      testError :=
        match err with
        | none => s.testError
        | some e => some (translateWorkflowError e),
      doneChannelClosed := true }
    if s1.isChild then
      match alookup s1.childWorkflows s1.workflowID with
      | some handlerCb =>
        (postCallback { s1 with childWorkflows := aerase s1.childWorkflows s1.workflowID }
            (.childResult s1.workflowID handlerCb s1.testResult s1.testError) true,
          cancelEvents ++ [Event.closeDoneChannel])
      | none => (s1, cancelEvents ++ [Event.closeDoneChannel])
    else (s1, cancelEvents ++ [Event.closeDoneChannel])

/-! ### Activity results -/

/-- Modelled from the spec: `convertActivityResultToRespondRequest` is
defined outside this source file.  Per the spec an activity outcome is
one of completed+bytes, failed+reason+details, or cancelled+details, so
a cancelled-error becomes a cancel request, any other error a failed
request, and no error a completed request carrying the encoded bytes. -/
def convertActivityResultToRespondRequest (data : Option Bytes)
    (err : Option CadenceError) : RespondRequest :=
  match err with
  | some (.canceled d) => .canceledReq d
  | some (.custom r d) => .failedReq r d
  | some .continueAsNew => .failedReq "ContinueAsNewError" none
  | some .timeout => .failedReq "TimeoutError" none
  | some .entityNotExists => .failedReq "EntityNotExistsError" none
  | some .activityResultPending => .failedReq "ActivityResultPending" none
  | none => .completedReq data

/-- The `(blob, err)` pair `handleActivityResult` passes to the stored
callback for each request shape (lines 703-715). -/
def respondBlob : RespondRequest → Option Bytes
  | .canceledReq _ => none
  | .failedReq _ _ => none
  | .completedReq r => r

def respondErr : RespondRequest → Option CadenceError
  | .canceledReq d => some (.canceled d)
  | .failedReq r d => some (.custom r d)
  | .completedReq _ => none

/-- `startDecisionTask` (lines 392-396): nudge the dispatcher unless the
test has completed. -/
def startDecisionTaskEvents (s : EnvState) : List Event :=
  if s.isTestCompleted then [] else [Event.startDecisionTask]

/-- `handleActivityResult` (lines 677-722).  A `nil` result is the
pending sentinel (`ErrActivityResultPending`): notify the completed
listener and return without touching the registry or the callback.
Otherwise, a missing handle means the outcome was already delivered;
else delete the handle, invoke the stored callback with the translated
result, notify the listener, and nudge the dispatcher. -/
def handleActivityResult (s : EnvState) (activityID : String)
    (result : Option RespondRequest) (activityType : String) :
    EnvState × List Event :=
  match result with
  | none =>
    (s,
      if s.onActivityCompletedListenerSet then
        [Event.activityCompletedListener activityID none (some .activityResultPending)]
      else [])
  | some request =>
    match alookup s.activities activityID with
    | none => (s, [])
    | some activityHandle =>
      let s1 := { s with activities := aerase s.activities activityID }
      let blob := respondBlob request
      let err := respondErr request
      (s1,
        [Event.handlerInvoked activityHandle.callback blob err] ++
          (if s1.onActivityCompletedListenerSet then
            [Event.activityCompletedListener activityID blob err]
          else []) ++
          startDecisionTaskEvents s1)

/-- `CompleteActivity` (lines 605-631): reject a nil task token, then
post a callback (with `startDecisionTask = false`) that will look up the
handle and drive `handleActivityResult` with the converted request.  The
`data` argument stands for the bytes produced by `encodeArg(result)`. -/
def CompleteActivity (s : EnvState) (taskToken : Option String)
    (data : Option Bytes) (err : Option CadenceError) : Except String EnvState :=
  match taskToken with
  | none => .error "nil task token provided"
  | some activityID =>
    .ok (postCallback s (.completeActivityCb activityID data err) false)

/-! ### Activity dispatch -/

/-- The auto-minting branch of `ExecuteActivity`
(`activityID = getStringID(env.nextID())`), with ghost recording in
`activityMintedIDs`. -/
def mintAutoActivityID (s : EnvState) : String × EnvState :=
  let q := nextID s
  (getStringID q.fst,
    { q.snd with activityMintedIDs := q.snd.activityMintedIDs ++ [q.fst] })

/-- `ExecuteActivity` (lines 641-675): mint the activity id (from the
counter unless the caller supplied a non-empty explicit id), register the
handle, increment the running count, and launch the task on a background
goroutine.  The goroutine's eventual `postCallback` of
`handleActivityResult` is asynchronous and enters the model as an
`activityResultCb` queue item. -/
def ExecuteActivity (s : EnvState) (explicitID : Option String)
    (activityType : String) (callback : Nat) :
    EnvState × List Event × String :=
  let p : String × EnvState :=
    match explicitID with
    | none => mintAutoActivityID s
    | some id => if id = "" then mintAutoActivityID s else (id, s)
  let activityID := p.fst
  let s1 := p.snd
  let activityHandle : TestActivityHandle := ⟨callback, activityType⟩
  let s2 := { s1 with
    activities := aset s1.activities activityID activityHandle,
    runningCount := s1.runningCount + 1 }
  (s2, [Event.launchActivityTask activityID], activityID)

/-- The id-minting step of `newTestWorkflowEnvironmentForChild`
(line 258): a defaulted child workflow id consumes `nextID` and embeds
it into the composite id `parentRunID + "_" + getStringID n`. -/
def newChildWorkflowID (s : EnvState) (parentRunID : String) : String × EnvState :=
  let q := nextID s
  (parentRunID ++ "_" ++ getStringID q.fst, q.snd)

/-! ### Mock clock advance and timer auto-fire -/

def insertByFireAt (o : MockTimerObj) : List MockTimerObj → List MockTimerObj
  | [] => [o]
  | x :: xs => if o.fireAt < x.fireAt then o :: x :: xs else x :: insertByFireAt o xs

def sortByFireAt (l : List MockTimerObj) : List MockTimerObj :=
  l.foldr insertByFireAt []

/-- `mockClock.Add(d)` of the mock clock library: move the mock time
forward by `d` and run, in deadline order, the fire function of every
armed mock timer whose deadline has been reached.  The fire function
(registered in `newTimer`, lines 968-976) deletes the timer handle from
the registry and posts the user callback with
`startDecisionTask = true`. -/
def mockClockAdd (s : EnvState) (d : Int) : EnvState × List Event :=
  let target := s.mockNow + d
  let ready := sortByFireAt (s.mockTimers.filter (fun o => o.fireAt ≤ target))
  let s0 := { s with
    mockNow := target,
    mockTimers := s.mockTimers.filter (fun o => target < o.fireAt) }
  (ready.foldl (fun acc o =>
      { acc with
        timers := aerase acc.timers o.timerID,
        callbackQueue := acc.callbackQueue ++
          [⟨.timerFired o.timerID o.handler o.notifyListener, true⟩] }) s0,
    [Event.mockClockAdvanced d])

/-- The inner `fireTimer` closure of `autoFireNextTimer` (lines 474-483):
skip the mock clock forward to the timer's mock fire time. -/
def fireTimer (s : EnvState) (th : TestTimerHandle) : EnvState × List Event :=
  mockClockAdd s (th.mockTimeToFire - s.mockNow)

/-- `clock.Timer.Stop()` on a wall-clock guard identified by serial. -/
def stopWallTimerObjs (l : List WallTimerObj) (w : Nat) : List WallTimerObj :=
  l.map (fun o => if o.wid = w then { o with stopped := true } else o)

/-- `autoFireNextTimer` (lines 457-522).  Select the next timer (empty
registry returns false); with no running activity, stop and clear its
wall guard and fire it by advancing the mock clock; otherwise pace on
the wall clock: keep an existing earlier guard, else stop the existing
guard and arm a fresh one at `wallNow + (mockTimeToFire - mockNow)`. -/
def autoFireNextTimer (s : EnvState) : EnvState × List Event × Bool :=
  match findNextTimer (s.timers.map Prod.snd) with
  | none => (s, [], false)
  | some nextTimer =>
    if s.runningCount = 0 then
      let p :=
        match nextTimer.wallTimer with
        | some w =>
          ({ s with
              wallTimers := stopWallTimerObjs s.wallTimers w,
              timers := aset s.timers (getStringID nextTimer.timerID)
                { nextTimer with wallTimer := none } },
            [Event.stopWallTimer w])
        | none => (s, ([] : List Event))
      let q := fireTimer p.fst nextTimer
      (q.fst, p.snd ++ q.snd, true)
    else
      let durationToFire := nextTimer.mockTimeToFire - s.mockNow
      let wallTimeToFire := s.wallNow + durationToFire
      if nextTimer.wallTimer.isSome ∧ nextTimer.wallTimeToFire < wallTimeToFire then
        (s, [], false)
      else
        let p :=
          match nextTimer.wallTimer with
          | some w =>
            ({ s with wallTimers := stopWallTimerObjs s.wallTimers w },
              [Event.stopWallTimer w])
          | none => (s, ([] : List Event))
        let s1 := p.fst
        let wid := s1.nextWid
        let obj : WallTimerObj := ⟨wid, nextTimer.timerID, wallTimeToFire, false⟩
        let s2 := { s1 with
          wallTimers := s1.wallTimers ++ [obj],
          nextWid := wid + 1,
          timers := aset s1.timers (getStringID nextTimer.timerID)
            { nextTimer with wallTimeToFire := wallTimeToFire, wallTimer := some wid } }
        (s2, p.snd ++ [Event.armWallTimer wid nextTimer.timerID wallTimeToFire], false)

/-! ### Running queued callbacks and the main loop -/

/-- The body of each closure the source posts (see `TestCallback`). -/
def runCallback (s : EnvState) : TestCallback → EnvState × List Event
  | .timerFired timerID handler notifyListener =>
    (s, [Event.handlerInvoked handler none none] ++
      (if notifyListener && s.onTimerFiredListenerSet then
        [Event.timerFiredListener timerID]
      else []))
  | .timerCancelled timerID handler =>
    (s, [Event.handlerInvoked handler none (some (.canceled none))] ++
      (if s.onTimerCancelledListenerSet then
        [Event.timerCancelledListener timerID]
      else []))
  | .activityCancelled activityID handler =>
    (s, [Event.handlerInvoked handler none (some (.canceled none))] ++
      (if s.onActivityCanceledListenerSet then
        [Event.activityCanceledListener activityID]
      else []))
  | .wallFire timerID =>
    match alookup s.timers (getStringID timerID) with
    | some timerHandle => fireTimer s timerHandle
    | none => (s, [])
  | .heartbeatNotify activityID details =>
    (s,
      if s.onActivityHeartbeatListenerSet then
        [Event.activityHeartbeatListener activityID details]
      else [])
  | .activityResultCb activityID request activityType =>
    handleActivityResult s activityID request activityType
  | .completeActivityCb activityID data err =>
    match alookup s.activities activityID with
    | none => (s, [])
    | some activityHandle =>
      handleActivityResult s activityID
        (some (convertActivityResultToRespondRequest data err))
        activityHandle.activityType
  | .childResult workflowID handler result err =>
    (s, [Event.handlerInvoked handler result err] ++
      (if s.onChildWorkflowCompletedListenerSet then
        [Event.childWorkflowCompletedListener workflowID result err]
      else []))

/-- `testCallbackHandle.processCallback` (lines 448-455): run the
callback, then nudge the dispatcher if `startDecisionTask` is set. -/
def processCallbackHandle (s : EnvState) (c : TestCallbackHandle) :
    EnvState × List Event :=
  let p := runCallback s c.callback
  if c.startDecisionTask then (p.fst, p.snd ++ startDecisionTaskEvents p.fst) else p

inductive LoopStep where
  | continued (s : EnvState) (events : List Event)
  | finished (s : EnvState) (events : List Event)
  | blocked (s : EnvState) (events : List Event)
deriving DecidableEq, Repr

/-- One iteration of `startMainLoop` (lines 409-435): the non-blocking
select drains one callback if the channel is non-empty; only in the
default (idle) branch is `autoFireNextTimer` considered, then the
completion check, then the blocking wait (`blocked`). -/
def mainLoopIteration (s : EnvState) : LoopStep :=
  match s.callbackQueue with
  | c :: rest =>
    let p := processCallbackHandle { s with callbackQueue := rest } c
    .continued p.fst p.snd
  | [] =>
    let q := autoFireNextTimer s
    if q.snd.snd then .continued q.fst q.snd.fst
    else if q.fst.isTestCompleted then .finished q.fst q.snd.fst
    else .blocked q.fst q.snd.fst

/-! ### Heartbeat -/

/-- `mockHeartbeatFn` (lines 208-227): the task token is the activity id;
a missing handle yields `EntityNotExistsError`, otherwise a callback
invoking the heartbeat listener is posted (`startDecisionTask = false`)
and nil is returned. -/
def mockHeartbeatFn (s : EnvState) (taskToken : String) (details : Bytes) :
    EnvState × Option CadenceError :=
  let activityID := taskToken
  match alookup s.activities activityID with
  | none => (s, some .entityNotExists)
  | some _ => (postCallback s (.heartbeatNotify activityID details) false, none)

/-- The wired gomock expectation (lines 229-237): `Return` always yields
a response with `CancelRequested = false` and a nil error, and the `Do`
action runs `mockHeartbeatFn` for its side effects only, discarding its
returned error (the propagation is commented out in the source because
of a gomock data race).  Result: (state, response.CancelRequested, error
observed by the caller). -/
def recordActivityTaskHeartbeat (s : EnvState) (taskToken : String)
    (details : Bytes) : EnvState × Bool × Option CadenceError :=
  let p := mockHeartbeatFn s taskToken details
  (p.fst, false, none)

/-! ### Operation traces over an environment -/

inductive EnvOp where
  | newTimerOp (d : Int) (callback : Nat)
  | executeActivityOp (explicitID : Option String) (activityType : String)
      (callback : Nat)
  | childWorkflowOp (parentRunID : String)
  | cancelTimerOp (timerID : String)
  | cancelActivityOp (activityID : String)
deriving DecidableEq, Repr

def runOp (s : EnvState) : EnvOp → EnvState
  | .newTimerOp d cb => (newTimer s d cb true).fst
  | .executeActivityOp eid ty cb => (ExecuteActivity s eid ty cb).fst
  | .childWorkflowOp r => (newChildWorkflowID s r).snd
  | .cancelTimerOp tid => RequestCancelTimer s tid
  | .cancelActivityOp aid => RequestCancelActivity s aid

def runOps (s : EnvState) (ops : List EnvOp) : EnvState :=
  ops.foldl runOp s

/-- The state built by `newTestWorkflowEnvironmentImpl` (lines 160-249):
fresh clocks, empty registries, counter at zero, no listeners. -/
def initialEnvState : EnvState :=
  { counterID := 0, mintedIDs := [], timerMintedIDs := [], activityMintedIDs := [],
    mockNow := 0, wallNow := 0, runningCount := 0,
    mockTimers := [], wallTimers := [], nextWid := 0,
    timers := [], activities := [], childWorkflows := [], callbackQueue := [],
    isTestCompleted := false, testResult := none, testError := none,
    doneChannelClosed := false,
    workflowID := "default-test-workflow-id", isChild := false,
    workflowCancelHandlerSet := false,
    onTimerScheduledListenerSet := false, onTimerFiredListenerSet := false,
    onTimerCancelledListenerSet := false, onActivityCanceledListenerSet := false,
    onActivityCompletedListenerSet := false, onActivityHeartbeatListenerSet := false,
    onChildWorkflowCompletedListenerSet := false }

/-! ### Mock overlay: `executeMock` validation (lines 835-908)

Go reflection is embedded as far as the validation logic needs it: a
type has a kind and an identity; a mock return slot is nil, an error
value, a function value, or a plain value.  `AssignableTo` and
`encodeArg` are the external reflection/codec services and are passed in
as parameters. -/

inductive TypeKind where
  | ptr | iface | mapKind | sliceKind | arrayKind | chanKind | funcKind | otherKind
deriving DecidableEq, Repr

structure GoType where
  kind : TypeKind
  uid : Nat
deriving DecidableEq, Repr

/-- The reflected type of the mocked function: identity plus its return
signature (`NumOut`, `Out(0)`). -/
structure GoFnType where
  uid : Nat
  numOut : Nat
  out0 : GoType
deriving DecidableEq, Repr

inductive MockValue where
  | nilVal
  | errVal (t : GoType) (e : CadenceError)
  | fnVal (t : GoFnType)
  | plainVal (t : GoType)
deriving DecidableEq, Repr

inductive MockOutcome where
  | panicked (msg : String)
  | ranMockFn (t : GoFnType)
  | returned (result : Option Bytes) (err : Option CadenceError)
deriving DecidableEq, Repr

/-- The nil-able kinds accepted for a nil first return value
(line 886): pointer, interface, map, slice, array.  `Chan` and `Func`
are nil-able in Go but deliberately unsupported. -/
def isNilableKind : TypeKind → Bool
  | .ptr => true
  | .iface => true
  | .mapKind => true
  | .sliceKind => true
  | .arrayKind => true
  | _ => false

/-- The error-slot reading of the last mock return value
(lines 867-876): nil means no error, an error value is kept, anything
else panics. -/
def readErrSlot : MockValue → Option (Option CadenceError)
  | .nilVal => some none
  | .errVal _ e => some (some e)
  | _ => none

/-- `executeMock` (lines 835-908), parameterised by reflection's
`AssignableTo` and the host codec's `encodeArg`. -/
def executeMock (assignableTo : GoType → GoType → Bool)
    (encodeArg : GoType → Option Bytes)
    (fnType : GoFnType) (mockRet : List MockValue) : MockOutcome :=
  match mockRet with
  | [] => .panicked "mock has no returns"
  | .fnVal mockFnType :: _ =>
    if mockFnType = fnType then .ranMockFn mockFnType
    else .panicked "mock has incorrect return function"
  | first :: rest =>
    if (first :: rest).length ≠ fnType.numOut then
      .panicked "mock has incorrect number of returns"
    else
      match readErrSlot (rest.getLastD first) with
      | none => .panicked "mock has incorrect return type, expected error"
      | some retErr =>
        match rest with
        | [] => .returned none retErr
        | [_] =>
          match first with
          | .nilVal =>
            if isNilableKind fnType.out0.kind then .returned none retErr
            else .panicked "mock has incorrect return type, nil not allowed"
          | .errVal t _ =>
            if assignableTo t fnType.out0 then
              match encodeArg t with
              | some bytes => .returned (some bytes) retErr
              | none => .panicked "encode result from mock failed"
            else .panicked "mock has incorrect return type, not assignable"
          | .plainVal t =>
            if assignableTo t fnType.out0 then
              match encodeArg t with
              | some bytes => .returned (some bytes) retErr
              | none => .panicked "encode result from mock failed"
            else .panicked "mock has incorrect return type, not assignable"
          | .fnVal _ => .panicked "mock has incorrect return type, not assignable"
        | _ :: _ :: _ =>
          .panicked "mock should either have 1 return value or 2 return values"

/-! ### Distinctness of decimal string ids -/

theorem digitChar_inj_lt : ∀ a < 10, ∀ b < 10, digitChar a = digitChar b → a = b := by
  decide

theorem map_digitChar_inj : ∀ (l1 l2 : List Nat), (∀ d ∈ l1, d < 10) →
    (∀ d ∈ l2, d < 10) → l1.map digitChar = l2.map digitChar → l1 = l2 := by
  intro l1
  induction l1 with
  | nil =>
    intro l2 _ _ h
    cases l2 with
    | nil => rfl
    | cons y ys => simp at h
  | cons x xs ih =>
    intro l2 h1 h2 h
    cases l2 with
    | nil => simp at h
    | cons y ys =>
      simp only [List.map_cons, List.cons.injEq] at h
      have hx : x = y :=
        digitChar_inj_lt x (h1 x (List.mem_cons_self x xs))
          y (h2 y (List.mem_cons_self y ys)) h.1
      have hxs : xs = ys :=
        ih ys (fun d hd => h1 d (List.mem_cons_of_mem x hd))
          (fun d hd => h2 d (List.mem_cons_of_mem y hd)) h.2
      rw [hx, hxs]

theorem getStringID_injective : Function.Injective getStringID := by
  intro a b h
  unfold getStringID at h
  by_cases ha : a = 0 <;> by_cases hb : b = 0
  · exact ha.trans hb.symm
  · exfalso
    rw [if_pos ha, if_neg hb] at h
    have hchars : ['0'] = (Nat.digits 10 b).reverse.map digitChar := by
      have := congrArg String.data h
      simpa using this
    have hrev : (Nat.digits 10 b).reverse = [0] := by
      cases hd : (Nat.digits 10 b).reverse with
      | nil => rw [hd] at hchars; simp at hchars
      | cons d ds =>
        rw [hd] at hchars
        cases ds with
        | nil =>
          simp only [List.map_cons, List.map_nil, List.cons.injEq, and_true] at hchars
          have hdlt : d < 10 := by
            apply Nat.digits_lt_base (by norm_num)
            have : d ∈ (Nat.digits 10 b).reverse := by rw [hd]; exact List.mem_cons_self d []
            exact List.mem_reverse.mp this
          have : (0 : Nat) = d := by
            apply digitChar_inj_lt 0 (by norm_num) d hdlt
            rw [← hchars]
            rfl
          rw [← this]
        | cons e es => simp at hchars
    have hdig : Nat.digits 10 b = [0] := by
      have := congrArg List.reverse hrev
      simpa using this
    have : b = 0 := by
      have h0 : Nat.ofDigits 10 (Nat.digits 10 b) = b := Nat.ofDigits_digits 10 b
      rw [hdig] at h0
      simpa using h0.symm
    exact hb this
  · exfalso
    rw [if_neg ha, if_pos hb] at h
    have hchars : (Nat.digits 10 a).reverse.map digitChar = ['0'] := by
      have := congrArg String.data h
      simpa using this
    have hrev : (Nat.digits 10 a).reverse = [0] := by
      cases hd : (Nat.digits 10 a).reverse with
      | nil => rw [hd] at hchars; simp at hchars
      | cons d ds =>
        rw [hd] at hchars
        cases ds with
        | nil =>
          simp only [List.map_cons, List.map_nil, List.cons.injEq, and_true] at hchars
          have hdlt : d < 10 := by
            apply Nat.digits_lt_base (by norm_num)
            have : d ∈ (Nat.digits 10 a).reverse := by rw [hd]; exact List.mem_cons_self d []
            exact List.mem_reverse.mp this
          have : d = 0 := by
            apply digitChar_inj_lt d hdlt 0 (by norm_num)
            rw [hchars]
            rfl
          rw [this]
        | cons e es => simp at hchars
    have hdig : Nat.digits 10 a = [0] := by
      have := congrArg List.reverse hrev
      simpa using this
    have : a = 0 := by
      have h0 : Nat.ofDigits 10 (Nat.digits 10 a) = a := Nat.ofDigits_digits 10 a
      rw [hdig] at h0
      simpa using h0.symm
    exact ha this
  · rw [if_neg ha, if_neg hb] at h
    have hchars : (Nat.digits 10 a).reverse.map digitChar =
        (Nat.digits 10 b).reverse.map digitChar := by
      have := congrArg String.data h
      simpa using this
    have hba : ∀ d ∈ (Nat.digits 10 a).reverse, d < 10 := by
      intro d hd
      exact Nat.digits_lt_base (by norm_num) (List.mem_reverse.mp hd)
    have hbb : ∀ d ∈ (Nat.digits 10 b).reverse, d < 10 := by
      intro d hd
      exact Nat.digits_lt_base (by norm_num) (List.mem_reverse.mp hd)
    have hrev := map_digitChar_inj _ _ hba hbb hchars
    have hdig : Nat.digits 10 a = Nat.digits 10 b := by
      have := congrArg List.reverse hrev
      simpa using this
    exact Nat.digits_inj_iff.mp hdig

/-! ### Counter-minted ids never collide -/

/-- Invariant tying the ghost minting records to the counter: the ids
minted for timers and the ids auto-minted for activities are duplicate
free, mutually disjoint, and all below the current counter. -/
def mintInv (s : EnvState) : Prop :=
  s.timerMintedIDs.Nodup ∧ s.activityMintedIDs.Nodup ∧
    (∀ i ∈ s.timerMintedIDs, i ∉ s.activityMintedIDs) ∧
    (∀ i ∈ s.timerMintedIDs, i < s.counterID) ∧
    (∀ i ∈ s.activityMintedIDs, i < s.counterID)

theorem mintInv_runOp (s : EnvState) (op : EnvOp) (h : mintInv s) :
    mintInv (runOp s op) := by
  obtain ⟨h1, h2, h3, h4, h5⟩ := h
  cases op with
  | newTimerOp d cb =>
    simp only [runOp, newTimer, nextID, mintInv]
    refine ⟨?_, h2, ?_, ?_, ?_⟩
    · simp only [List.nodup_append, List.nodup_cons, List.not_mem_nil,
        not_false_iff, List.nodup_nil, and_true, true_and, List.disjoint_singleton]
      exact ⟨h1, fun hc => absurd (h4 _ hc) (lt_irrefl _)⟩
    · intro i hi
      rcases List.mem_append.mp hi with hi' | hi'
      · exact h3 i hi'
      · simp only [List.mem_singleton] at hi'
        subst hi'
        intro hc
        exact absurd (h5 _ hc) (lt_irrefl _)
    · intro i hi
      rcases List.mem_append.mp hi with hi' | hi'
      · exact Nat.lt_succ_of_lt (h4 i hi')
      · simp only [List.mem_singleton] at hi'
        subst hi'
        exact Nat.lt_succ_self _
    · intro i hi
      exact Nat.lt_succ_of_lt (h5 i hi)
  | executeActivityOp eid ty cb =>
    have hmint : mintInv (mintAutoActivityID s).snd := by
      simp only [mintAutoActivityID, nextID, mintInv]
      refine ⟨h1, ?_, ?_, ?_, ?_⟩
      · simp only [List.nodup_append, List.nodup_cons, List.not_mem_nil,
          not_false_iff, List.nodup_nil, and_true, true_and, List.disjoint_singleton]
        exact ⟨h2, fun hc => absurd (h5 _ hc) (lt_irrefl _)⟩
      · intro i hi hmem
        rcases List.mem_append.mp hmem with hm | hm
        · exact h3 i hi hm
        · simp only [List.mem_singleton] at hm
          subst hm
          exact absurd (h4 _ hi) (lt_irrefl _)
      · intro i hi
        exact Nat.lt_succ_of_lt (h4 i hi)
      · intro i hi
        rcases List.mem_append.mp hi with hi' | hi'
        · exact Nat.lt_succ_of_lt (h5 i hi')
        · simp only [List.mem_singleton] at hi'
          subst hi'
          exact Nat.lt_succ_self _
    cases eid with
    | none =>
      simp only [runOp, ExecuteActivity]
      exact hmint
    | some id =>
      by_cases hid : id = ""
      · simp only [runOp, ExecuteActivity, hid, if_pos]
        exact hmint
      · simp only [runOp, ExecuteActivity, hid, if_neg, not_false_iff]
        exact ⟨h1, h2, h3, h4, h5⟩
  | childWorkflowOp r =>
    simp only [runOp, newChildWorkflowID, nextID, mintInv]
    exact ⟨h1, h2, h3, fun i hi => Nat.lt_succ_of_lt (h4 i hi),
      fun i hi => Nat.lt_succ_of_lt (h5 i hi)⟩
  | cancelTimerOp tid =>
    simp only [runOp, RequestCancelTimer]
    cases alookup s.timers tid with
    | none => exact ⟨h1, h2, h3, h4, h5⟩
    | some th =>
      simp only [postCallback]
      exact ⟨h1, h2, h3, h4, h5⟩
  | cancelActivityOp aid =>
    simp only [runOp, RequestCancelActivity]
    cases alookup s.activities aid with
    | none => exact ⟨h1, h2, h3, h4, h5⟩
    | some ah =>
      simp only [postCallback]
      exact ⟨h1, h2, h3, h4, h5⟩

theorem mintInv_runOps (ops : List EnvOp) :
    ∀ s : EnvState, mintInv s → mintInv (runOps s ops) := by
  induction ops with
  | nil => intro s h; exact h
  | cons op rest ih =>
    intro s h
    exact ih (runOp s op) (mintInv_runOp s op h)

theorem mintInv_initial : mintInv initialEnvState := by
  refine ⟨List.nodup_nil, List.nodup_nil, ?_, ?_, ?_⟩ <;>
    intro i hi <;> simp [initialEnvState] at hi

/-! ### Helper lemmas about cancellation -/

theorem RequestCancelActivity_not_found (s : EnvState) (aid : String)
    (h : alookup s.activities aid = none) : RequestCancelActivity s aid = s := by
  simp [RequestCancelActivity, h]

theorem RequestCancelTimer_not_found (s : EnvState) (tid : String)
    (h : alookup s.timers tid = none) : RequestCancelTimer s tid = s := by
  simp [RequestCancelTimer, h]

theorem RequestCancelActivity_activities (s : EnvState) (aid : String)
    (h : TestActivityHandle) (hl : alookup s.activities aid = some h) :
    (RequestCancelActivity s aid).activities = aerase s.activities aid := by
  simp [RequestCancelActivity, hl, postCallback]

theorem RequestCancelTimer_timers (s : EnvState) (tid : String)
    (th : TestTimerHandle) (hl : alookup s.timers tid = some th) :
    (RequestCancelTimer s tid).timers = aerase s.timers tid := by
  simp [RequestCancelTimer, hl, postCallback]

/-! ### Claim theorems -/

/-- C3: whenever the auto-fire policy runs with a non-empty timer
registry, the timer it selects to fire next is one of the registered
handles and, against every registered handle, either fires strictly
earlier on the mock clock or fires at the same mock time with an integer
id that is no larger — i.e. it is the timer with the smallest
mock-time-to-fire, ties broken by the smaller id, independent of the
order the registry map is traversed in. -/
theorem autoFire_selects_earliest_timer (l : List TestTimerHandle)
    (m : TestTimerHandle) (h : findNextTimer l = some m) :
    m ∈ l ∧ ∀ t ∈ l, m.mockTimeToFire < t.mockTimeToFire ∨
      (m.mockTimeToFire = t.mockTimeToFire ∧ m.timerID ≤ t.timerID) := by
  cases l with
  | nil => simp [findNextTimer] at h
  | cons x xs =>
    simp only [findNextTimer, Option.some.injEq] at h
    subst h
    have hs := pickNext_spec xs x
    constructor
    · rcases hs.1 with h1 | h1
      · rw [h1]; exact List.mem_cons_self x xs
      · exact List.mem_cons_of_mem x h1
    · intro t ht
      rcases List.mem_cons.mp ht with rfl | ht'
      · exact hs.2.1
      · exact hs.2.2 t ht'

theorem autoFire_selects_earliest_timer_witness :
    (⟨2, none, 5, 10, 10, 1⟩ : TestTimerHandle) ∈
        [(⟨1, none, 5, 10, 10, 3⟩ : TestTimerHandle),
          ⟨2, none, 5, 10, 10, 1⟩, ⟨3, none, 7, 12, 12, 0⟩] ∧
      ∀ t ∈ [(⟨1, none, 5, 10, 10, 3⟩ : TestTimerHandle),
          ⟨2, none, 5, 10, 10, 1⟩, ⟨3, none, 7, 12, 12, 0⟩],
        (10 : Int) < t.mockTimeToFire ∨ ((10 : Int) = t.mockTimeToFire ∧ 1 ≤ t.timerID) :=
  autoFire_selects_earliest_timer
    [⟨1, none, 5, 10, 10, 3⟩, ⟨2, none, 5, 10, 10, 1⟩, ⟨3, none, 7, 12, 12, 0⟩]
    ⟨2, none, 5, 10, 10, 1⟩ (by decide)

/-- C5: two consecutive cancel requests for the same registered activity
id, and likewise for the same registered timer id, produce exactly one
cancelled-error callback: the first cancel removes the handle and
appends exactly one cancellation callback to the queue, and the second
cancel leaves the environment completely unchanged. -/
theorem cancel_idempotent :
    (∀ (s : EnvState) (aid : String) (h : TestActivityHandle),
        alookup s.activities aid = some h →
        RequestCancelActivity (RequestCancelActivity s aid) aid =
            RequestCancelActivity s aid ∧
          (RequestCancelActivity s aid).callbackQueue =
            s.callbackQueue ++ [⟨.activityCancelled aid h.callback, true⟩]) ∧
    (∀ (s : EnvState) (tid : String) (th : TestTimerHandle),
        alookup s.timers tid = some th →
        RequestCancelTimer (RequestCancelTimer s tid) tid =
            RequestCancelTimer s tid ∧
          (RequestCancelTimer s tid).callbackQueue =
            s.callbackQueue ++ [⟨.timerCancelled tid th.callback, true⟩]) := by
  constructor
  · intro s aid h hl
    constructor
    · apply RequestCancelActivity_not_found
      rw [RequestCancelActivity_activities s aid h hl]
      exact alookup_aerase _ _
    · simp [RequestCancelActivity, hl, postCallback]
  · intro s tid th hl
    constructor
    · apply RequestCancelTimer_not_found
      rw [RequestCancelTimer_timers s tid th hl]
      exact alookup_aerase _ _
    · simp [RequestCancelTimer, hl, postCallback]

theorem cancel_idempotent_witness :
    (RequestCancelActivity
          (RequestCancelActivity
            { initialEnvState with activities := [("a1", ⟨9, "T"⟩)] } "a1") "a1" =
        RequestCancelActivity
          { initialEnvState with activities := [("a1", ⟨9, "T"⟩)] } "a1" ∧
      (RequestCancelActivity
          { initialEnvState with activities := [("a1", ⟨9, "T"⟩)] } "a1").callbackQueue =
        [⟨.activityCancelled "a1" 9, true⟩]) ∧
    (RequestCancelTimer
          (RequestCancelTimer
            { initialEnvState with timers := [("0", ⟨7, none, 4, 4, 4, 0⟩)] } "0") "0" =
        RequestCancelTimer
          { initialEnvState with timers := [("0", ⟨7, none, 4, 4, 4, 0⟩)] } "0" ∧
      (RequestCancelTimer
          { initialEnvState with timers := [("0", ⟨7, none, 4, 4, 4, 0⟩)] } "0").callbackQueue =
        [⟨.timerCancelled "0" 7, true⟩]) :=
  ⟨cancel_idempotent.1 { initialEnvState with activities := [("a1", ⟨9, "T"⟩)] }
      "a1" ⟨9, "T"⟩ (by decide),
    cancel_idempotent.2 { initialEnvState with timers := [("0", ⟨7, none, 4, 4, 4, 0⟩)] }
      "0" ⟨7, none, 4, 4, 4, 0⟩ (by decide)⟩

/-- C10: completing an environment is idempotent at the public
interface: a first `Complete` on a not-yet-completed environment sets
the completion flag, and once the flag is set every subsequent
`Complete` returns the state completely unchanged (result, error, done
signal, queue — hence no callback to the parent) and produces no
events. -/
theorem complete_idempotent :
    (∀ (s : EnvState) (r : Option Bytes) (e : Option CadenceError),
        s.isTestCompleted = false → ((Complete s r e).fst).isTestCompleted = true) ∧
    (∀ (s : EnvState) (r : Option Bytes) (e : Option CadenceError),
        s.isTestCompleted = true → Complete s r e = (s, [])) := by
  constructor
  · intro s r e h
    simp only [Complete, h, Bool.false_eq_true, if_false]
    split
    · split
      · simp [postCallback]
      · simp
    · simp
  · intro s r e h
    simp [Complete, h]

theorem complete_idempotent_witness :
    ((Complete initialEnvState (some [1]) none).fst).isTestCompleted = true ∧
      Complete { initialEnvState with isTestCompleted := true } (some [2]) none =
        ({ initialEnvState with isTestCompleted := true }, []) :=
  ⟨complete_idempotent.1 initialEnvState (some [1]) none rfl,
    complete_idempotent.2 { initialEnvState with isTestCompleted := true }
      (some [2]) none rfl⟩

/-- C1 counterexample: a heartbeat whose task token names an
unregistered activity does not return an error to the caller of the
mocked service: `mockHeartbeatFn` produces `EntityNotExistsError`
internally, but the gomock wiring discards it and the caller always
observes `(CancelRequested = false, nil error)`. -/
theorem heartbeat_counterexample :
    alookup initialEnvState.activities "gone" = none ∧
      (mockHeartbeatFn initialEnvState "gone" []).snd =
        some CadenceError.entityNotExists ∧
      (recordActivityTaskHeartbeat initialEnvState "gone" []).snd =
        (false, none) := by
  decide

/-- C1 amended: for every heartbeat whose task token names an activity
that is no longer registered, the internal heartbeat function returns an
"entity not exists" error and posts nothing; for every heartbeat whose
activity is still registered, it succeeds and posts exactly one callback
invoking the heartbeat listener; the wired mock service runs this
function only for its side effects and always reports success (no
error) to the caller. -/
theorem heartbeat_routing (s : EnvState) (token : String) (details : Bytes) :
    (alookup s.activities token = none →
        mockHeartbeatFn s token details = (s, some .entityNotExists)) ∧
    (∀ h : TestActivityHandle, alookup s.activities token = some h →
        mockHeartbeatFn s token details =
          ({ s with callbackQueue := s.callbackQueue ++
              [⟨.heartbeatNotify token details, false⟩] }, none)) ∧
    recordActivityTaskHeartbeat s token details =
      ((mockHeartbeatFn s token details).fst, false, none) := by
  refine ⟨?_, ?_, rfl⟩
  · intro h
    simp [mockHeartbeatFn, h]
  · intro h hl
    simp [mockHeartbeatFn, hl, postCallback]

theorem heartbeat_routing_witness :
    mockHeartbeatFn initialEnvState "a" [] =
        (initialEnvState, some .entityNotExists) ∧
      mockHeartbeatFn
          { initialEnvState with activities := [("a", ⟨3, "T"⟩)] } "a" [2] =
        ({ initialEnvState with
            activities := [("a", ⟨3, "T"⟩)],
            callbackQueue := [⟨.heartbeatNotify "a" [2], false⟩] }, none) :=
  ⟨(heartbeat_routing initialEnvState "a" []).1 (by decide),
    (heartbeat_routing { initialEnvState with activities := [("a", ⟨3, "T"⟩)] }
        "a" [2]).2.1 ⟨3, "T"⟩ (by decide)⟩

/-- C2 counterexample: cancelling timer "7", whose wall-clock guard
(serial 0) is armed, deletes the handle but leaves the guard armed and
unstopped: `RequestCancelTimer` stops only `timerHandle.timer`, never
`timerHandle.wallTimer`, refuting "stops both its mock-clock timer and
its wall-clock timer (when armed)". -/
theorem cancel_timer_counterexample :
    (RequestCancelTimer
        { initialEnvState with
            timers := [("7", ⟨5, some 0, 9, 9, 9, 7⟩)],
            mockTimers := [⟨"7", 9, 5, true⟩],
            wallTimers := [⟨0, 7, 100, false⟩] } "7").timers = [] ∧
      (RequestCancelTimer
        { initialEnvState with
            timers := [("7", ⟨5, some 0, 9, 9, 9, 7⟩)],
            mockTimers := [⟨"7", 9, 5, true⟩],
            wallTimers := [⟨0, 7, 100, false⟩] } "7").wallTimers =
        [⟨0, 7, 100, false⟩] := by
  decide

/-- C2 amended: for every timer id present in the registry, cancelling
deletes the handle, stops its mock-clock timer, and posts exactly one
callback (with start-decision-task set) delivering a cancelled-error to
the timer's original callback; the wall-clock timer store is left
untouched, so an armed wall guard is not stopped (it is harmless
because its fire callback no longer finds the handle). -/
theorem cancel_timer_behaviour (s : EnvState) (tid : String)
    (th : TestTimerHandle) (hl : alookup s.timers tid = some th) :
    (RequestCancelTimer s tid).timers = aerase s.timers tid ∧
    (RequestCancelTimer s tid).mockTimers =
        s.mockTimers.filter (fun o => o.timerID ≠ tid) ∧
    (RequestCancelTimer s tid).wallTimers = s.wallTimers ∧
    (RequestCancelTimer s tid).callbackQueue =
        s.callbackQueue ++ [⟨.timerCancelled tid th.callback, true⟩] ∧
    (runCallback (RequestCancelTimer s tid)
          (.timerCancelled tid th.callback)).snd.head? =
      some (Event.handlerInvoked th.callback none (some (.canceled none))) := by
  refine ⟨?_, ?_, ?_, ?_, ?_⟩ <;>
    simp [RequestCancelTimer, hl, postCallback, runCallback]

theorem cancel_timer_behaviour_witness :
    (RequestCancelTimer
        { initialEnvState with
            timers := [("7", ⟨5, some 0, 9, 9, 9, 7⟩)],
            mockTimers := [⟨"7", 9, 5, true⟩],
            wallTimers := [⟨0, 7, 100, false⟩] } "7").timers =
        aerase [("7", ⟨5, some 0, 9, 9, 9, 7⟩)] "7" ∧
      (RequestCancelTimer
        { initialEnvState with
            timers := [("7", ⟨5, some 0, 9, 9, 9, 7⟩)],
            mockTimers := [⟨"7", 9, 5, true⟩],
            wallTimers := [⟨0, 7, 100, false⟩] } "7").mockTimers =
        List.filter (fun o => o.timerID ≠ "7") [(⟨"7", 9, 5, true⟩ : MockTimerObj)] ∧
      (RequestCancelTimer
        { initialEnvState with
            timers := [("7", ⟨5, some 0, 9, 9, 9, 7⟩)],
            mockTimers := [⟨"7", 9, 5, true⟩],
            wallTimers := [⟨0, 7, 100, false⟩] } "7").wallTimers =
        [⟨0, 7, 100, false⟩] ∧
      (RequestCancelTimer
        { initialEnvState with
            timers := [("7", ⟨5, some 0, 9, 9, 9, 7⟩)],
            mockTimers := [⟨"7", 9, 5, true⟩],
            wallTimers := [⟨0, 7, 100, false⟩] } "7").callbackQueue =
        [⟨.timerCancelled "7" 5, true⟩] ∧
      (runCallback (RequestCancelTimer
          { initialEnvState with
              timers := [("7", ⟨5, some 0, 9, 9, 9, 7⟩)],
              mockTimers := [⟨"7", 9, 5, true⟩],
              wallTimers := [⟨0, 7, 100, false⟩] } "7")
            (.timerCancelled "7" 5)).snd.head? =
        some (Event.handlerInvoked 5 none (some (.canceled none))) :=
  cancel_timer_behaviour
    { initialEnvState with
        timers := [("7", ⟨5, some 0, 9, 9, 9, 7⟩)],
        mockTimers := [⟨"7", 9, 5, true⟩],
        wallTimers := [⟨0, 7, 100, false⟩] } "7" ⟨5, some 0, 9, 9, 9, 7⟩ (by decide)

/-- C6 counterexample: executing an activity with the caller-supplied
explicit id "0" and then creating a timer (which mints counter value 0,
decimal string "0") leaves both registries holding the key "0": a timer
id equals an activity id, refuting the claim for explicitly supplied
activity ids. -/
theorem id_alias_counterexample :
    alookup (runOps initialEnvState
        [.executeActivityOp (some "0") "T" 1, .newTimerOp 5 2]).activities "0" =
      some ⟨1, "T"⟩ ∧
    alookup (runOps initialEnvState
        [.executeActivityOp (some "0") "T" 1, .newTimerOp 5 2]).timers "0" =
      some ⟨2, none, 5, 5, 5, 0⟩ := by
  decide

/-- C6 amended: ids minted from the environment's counter never alias —
over every operation sequence on a fresh environment the counter values
minted for timers and those auto-minted for activities are each
duplicate free, and a timer's decimal string id never equals a
counter-minted activity's decimal string id.  (An explicitly supplied
activity id, by contrast, may equal a timer id.) -/
theorem counter_minted_ids_never_alias (ops : List EnvOp) :
    (runOps initialEnvState ops).timerMintedIDs.Nodup ∧
    (runOps initialEnvState ops).activityMintedIDs.Nodup ∧
    ∀ i ∈ (runOps initialEnvState ops).timerMintedIDs,
      ∀ j ∈ (runOps initialEnvState ops).activityMintedIDs,
        getStringID i ≠ getStringID j := by
  obtain ⟨h1, h2, h3, _, _⟩ := mintInv_runOps ops initialEnvState mintInv_initial
  refine ⟨h1, h2, ?_⟩
  intro i hi j hj heq
  have hij := getStringID_injective heq
  subst hij
  exact h3 i hi hj

/-- C7: a pending (nil) activity result leaves the environment unchanged
— the handle stays registered and no stored callback is invoked — while
`CompleteActivity` with the activity's task token posts a callback that
drives the same completion path as a background result: the handle is
removed from the registry, the stored callback is invoked with the
translated result, and the dispatcher is nudged. -/
theorem pending_activity_completion :
    (∀ (s : EnvState) (aid ty : String),
        (handleActivityResult s aid none ty).fst = s ∧
        ∀ h b e, Event.handlerInvoked h b e ∉ (handleActivityResult s aid none ty).snd) ∧
    (∀ (s : EnvState) (aid : String) (data : Option Bytes) (err : Option CadenceError),
        CompleteActivity s (some aid) data err =
          .ok { s with callbackQueue :=
            s.callbackQueue ++ [⟨.completeActivityCb aid data err, false⟩] }) ∧
    (∀ (t : EnvState) (aid : String) (h : TestActivityHandle)
        (data : Option Bytes) (err : Option CadenceError),
        alookup t.activities aid = some h → t.isTestCompleted = false →
        (runCallback t (.completeActivityCb aid data err)).fst.activities =
            aerase t.activities aid ∧
          Event.handlerInvoked h.callback
              (respondBlob (convertActivityResultToRespondRequest data err))
              (respondErr (convertActivityResultToRespondRequest data err)) ∈
            (runCallback t (.completeActivityCb aid data err)).snd ∧
          Event.startDecisionTask ∈
            (runCallback t (.completeActivityCb aid data err)).snd) := by
  refine ⟨?_, ?_, ?_⟩
  · intro s aid ty
    constructor
    · rfl
    · intro h b e
      simp only [handleActivityResult]
      split <;> simp
  · intro s aid data err
    rfl
  · intro t aid h data err hl hc
    refine ⟨?_, ?_, ?_⟩ <;>
      simp [runCallback, hl, handleActivityResult, startDecisionTaskEvents, hc]

theorem pending_activity_completion_witness :
    (handleActivityResult
          { initialEnvState with activities := [("p", ⟨4, "T"⟩)] } "p" none "T").fst =
        { initialEnvState with activities := [("p", ⟨4, "T"⟩)] } ∧
      (runCallback { initialEnvState with activities := [("p", ⟨4, "T"⟩)] }
            (.completeActivityCb "p" (some [7]) none)).fst.activities =
          aerase [("p", ⟨4, "T"⟩)] "p" ∧
        Event.handlerInvoked 4
            (respondBlob (convertActivityResultToRespondRequest (some [7]) none))
            (respondErr (convertActivityResultToRespondRequest (some [7]) none)) ∈
          (runCallback { initialEnvState with activities := [("p", ⟨4, "T"⟩)] }
            (.completeActivityCb "p" (some [7]) none)).snd ∧
        Event.startDecisionTask ∈
          (runCallback { initialEnvState with activities := [("p", ⟨4, "T"⟩)] }
            (.completeActivityCb "p" (some [7]) none)).snd :=
  ⟨(pending_activity_completion.1
      { initialEnvState with activities := [("p", ⟨4, "T"⟩)] } "p" "T").1,
    pending_activity_completion.2.2
      { initialEnvState with activities := [("p", ⟨4, "T"⟩)] } "p" ⟨4, "T"⟩
      (some [7]) none (by decide) rfl⟩

/-- C9: when the auto-fire policy considers the next timer while the
running count is non-zero and a wall-clock guard is already armed for
that timer: if the armed guard's wall fire time is strictly earlier
than the newly computed `wallNow + (mockTimeToFire - mockNow)`, the
environment is returned unchanged (the guard is kept and nothing new is
armed); if the armed guard's wall fire time is strictly later, the
existing guard is stopped and a fresh guard is armed at the newly
computed wall time, recorded on the handle. -/
theorem autofire_wall_guard (s : EnvState) (th : TestTimerHandle) (w : Nat)
    (hfind : findNextTimer (s.timers.map Prod.snd) = some th)
    (hrun : ¬ s.runningCount = 0) (hwt : th.wallTimer = some w) :
    (th.wallTimeToFire < s.wallNow + (th.mockTimeToFire - s.mockNow) →
        autoFireNextTimer s = (s, [], false)) ∧
    (s.wallNow + (th.mockTimeToFire - s.mockNow) < th.wallTimeToFire →
        autoFireNextTimer s =
          ({ s with
              wallTimers := stopWallTimerObjs s.wallTimers w ++
                [⟨s.nextWid, th.timerID,
                    s.wallNow + (th.mockTimeToFire - s.mockNow), false⟩],
              nextWid := s.nextWid + 1,
              timers := aset s.timers (getStringID th.timerID)
                { th with
                    wallTimeToFire := s.wallNow + (th.mockTimeToFire - s.mockNow),
                    wallTimer := some s.nextWid } },
            [Event.stopWallTimer w,
              Event.armWallTimer s.nextWid th.timerID
                (s.wallNow + (th.mockTimeToFire - s.mockNow))], false)) := by
  have hsome : th.wallTimer.isSome = true := by rw [hwt]; rfl
  constructor
  · intro hlt
    simp only [autoFireNextTimer, hfind, hrun, if_false, if_neg]
    rw [if_pos ⟨hsome, hlt⟩]
  · intro hgt
    have hnot : ¬ (th.wallTimer.isSome = true ∧
        th.wallTimeToFire < s.wallNow + (th.mockTimeToFire - s.mockNow)) := by
      rintro ⟨-, hlt⟩
      exact absurd (lt_trans hlt hgt) (lt_irrefl _)
    simp only [autoFireNextTimer, hfind, hrun, if_false, if_neg]
    rw [if_neg hnot, hwt]
    rfl

theorem autofire_wall_guard_witness :
    (autoFireNextTimer
        { initialEnvState with
            timers := [("3", ⟨1, some 0, 10, 10, 2, 3⟩)],
            wallTimers := [⟨0, 3, 2, false⟩],
            runningCount := 1, nextWid := 1 } =
      ({ initialEnvState with
          timers := [("3", ⟨1, some 0, 10, 10, 2, 3⟩)],
          wallTimers := [⟨0, 3, 2, false⟩],
          runningCount := 1, nextWid := 1 }, [], false)) ∧
    (autoFireNextTimer
        { initialEnvState with
            timers := [("3", ⟨1, some 0, 10, 10, 50, 3⟩)],
            wallTimers := [⟨0, 3, 2, false⟩],
            runningCount := 1, nextWid := 1 } =
      ({ { initialEnvState with
            timers := [("3", ⟨1, some 0, 10, 10, 50, 3⟩)],
            wallTimers := [⟨0, 3, 2, false⟩],
            runningCount := 1, nextWid := 1 } with
          wallTimers := stopWallTimerObjs [⟨0, 3, 2, false⟩] 0 ++ [⟨1, 3, 10, false⟩],
          nextWid := 2,
          timers := aset [("3", ⟨1, some 0, 10, 10, 50, 3⟩)] (getStringID 3)
            ⟨1, some 1, 10, 10, 10, 3⟩ },
        [Event.stopWallTimer 0, Event.armWallTimer 1 3 10], false)) :=
  ⟨(autofire_wall_guard
      { initialEnvState with
          timers := [("3", ⟨1, some 0, 10, 10, 2, 3⟩)],
          wallTimers := [⟨0, 3, 2, false⟩],
          runningCount := 1, nextWid := 1 } ⟨1, some 0, 10, 10, 2, 3⟩ 0
      (by decide) (by decide) rfl).1 (by decide),
    (autofire_wall_guard
      { initialEnvState with
          timers := [("3", ⟨1, some 0, 10, 10, 50, 3⟩)],
          wallTimers := [⟨0, 3, 2, false⟩],
          runningCount := 1, nextWid := 1 } ⟨1, some 0, 10, 10, 50, 3⟩ 0
      (by decide) (by decide) rfl).2 (by decide)⟩

/-- The state carried by a `LoopStep`. -/
def loopStepState : LoopStep → EnvState
  | .continued s _ => s
  | .finished s _ => s
  | .blocked s _ => s

/-- A concrete environment whose queue holds a wall-clock fire callback
for registered timer "0" (mock fire time 5) followed by a second
callback. -/
def busyQueueState : EnvState :=
  { initialEnvState with
      timers := [("0", ⟨1, none, 5, 5, 5, 0⟩)],
      mockTimers := [⟨"0", 5, 1, true⟩],
      callbackQueue := [⟨.wallFire 0, true⟩, ⟨.heartbeatNotify "x" [], false⟩] }

/-- C4 counterexample: in an iteration that starts with a non-empty
callback queue (a queued wall-clock fire callback followed by another
callback), processing the wall-fire callback advances the mock clock
from 0 to 5 even though the callback queue is non-empty before and after
the iteration — refuting "the mock clock is never advanced while the
callback queue is non-empty". -/
theorem clock_advances_while_queue_nonempty :
    busyQueueState.callbackQueue ≠ [] ∧
      busyQueueState.mockNow = 0 ∧
      (loopStepState (mainLoopIteration busyQueueState)).mockNow = 5 ∧
      (loopStepState (mainLoopIteration busyQueueState)).callbackQueue ≠ [] := by
  decide

theorem handleActivityResult_mockNow (s : EnvState) (aid : String)
    (r : Option RespondRequest) (ty : String) :
    (handleActivityResult s aid r ty).fst.mockNow = s.mockNow := by
  cases r with
  | none => rfl
  | some req =>
    simp only [handleActivityResult]
    cases alookup s.activities aid with
    | none => rfl
    | some ah => rfl

/-- No posted callback other than a wall-clock fire touches the mock
clock when run. -/
theorem runCallback_mockNow (s : EnvState) (cb : TestCallback)
    (hnw : ∀ tid, cb ≠ .wallFire tid) :
    (runCallback s cb).fst.mockNow = s.mockNow := by
  cases cb with
  | timerFired tid h n => rfl
  | timerCancelled tid h => rfl
  | activityCancelled aid h => rfl
  | wallFire tid => exact absurd rfl (hnw tid)
  | heartbeatNotify aid d => rfl
  | activityResultCb aid req ty =>
    exact handleActivityResult_mockNow s aid req ty
  | completeActivityCb aid d e =>
    simp only [runCallback]
    cases alookup s.activities aid with
    | none => rfl
    | some ah =>
      exact handleActivityResult_mockNow s aid
        (some (convertActivityResultToRespondRequest d e)) ah.activityType
  | childResult wid h r e => rfl

/-- C4 amended: in every iteration of the main loop with a pending
callback, that callback is processed and timer auto-fire is not
considered (auto-fire runs only in the empty-queue branch); processing
any callback other than a wall-clock-timer fire leaves the mock clock
unchanged, but a wall-clock fire callback may advance the mock clock
even while further callbacks remain queued. -/
theorem callback_before_autofire (s : EnvState) (c : TestCallbackHandle)
    (rest : List TestCallbackHandle) (hq : s.callbackQueue = c :: rest) :
    mainLoopIteration s =
      .continued (processCallbackHandle { s with callbackQueue := rest } c).fst
        (processCallbackHandle { s with callbackQueue := rest } c).snd ∧
    ((∀ tid, c.callback ≠ .wallFire tid) →
      (processCallbackHandle { s with callbackQueue := rest } c).fst.mockNow =
        s.mockNow) := by
  constructor
  · simp [mainLoopIteration, hq]
  · intro hnw
    have hfst : (processCallbackHandle { s with callbackQueue := rest } c).fst =
        (runCallback { s with callbackQueue := rest } c.callback).fst := by
      simp only [processCallbackHandle]
      split <;> rfl
    rw [hfst]
    exact runCallback_mockNow { s with callbackQueue := rest } c.callback hnw

theorem callback_before_autofire_witness :
    mainLoopIteration
        { initialEnvState with callbackQueue := [⟨.heartbeatNotify "x" [], false⟩] } =
      .continued
        (processCallbackHandle initialEnvState ⟨.heartbeatNotify "x" [], false⟩).fst
        (processCallbackHandle initialEnvState ⟨.heartbeatNotify "x" [], false⟩).snd ∧
      (processCallbackHandle initialEnvState ⟨.heartbeatNotify "x" [], false⟩).fst.mockNow =
        0 :=
  ⟨(callback_before_autofire
      { initialEnvState with callbackQueue := [⟨.heartbeatNotify "x" [], false⟩] }
      ⟨.heartbeatNotify "x" [], false⟩ [] rfl).1,
    (callback_before_autofire
      { initialEnvState with callbackQueue := [⟨.heartbeatNotify "x" [], false⟩] }
      ⟨.heartbeatNotify "x" [], false⟩ [] rfl).2 (fun tid h => nomatch h)⟩

/-- C8: the mock return specification is validated at mock-execution
time: a value tuple (head not a function value) whose length differs
from the mocked function's return count aborts with a descriptive
error; in the two-return case a non-nil result not assignable to the
function's first return type aborts; and a nil result is accepted
exactly when the first return type is reference-shaped (pointer,
interface, map, slice, array), aborting otherwise. -/
theorem execute_mock_validation (assignableTo : GoType → GoType → Bool)
    (encodeArg : GoType → Option Bytes) (fnType : GoFnType) :
    (∀ (first : MockValue) (rest : List MockValue),
        (∀ t, first ≠ .fnVal t) →
        (first :: rest).length ≠ fnType.numOut →
        executeMock assignableTo encodeArg fnType (first :: rest) =
          .panicked "mock has incorrect number of returns") ∧
    (∀ (t : GoType) (e2 : MockValue) (retErr : Option CadenceError),
        fnType.numOut = 2 → readErrSlot e2 = some retErr →
        assignableTo t fnType.out0 = false →
        executeMock assignableTo encodeArg fnType [.plainVal t, e2] =
          .panicked "mock has incorrect return type, not assignable") ∧
    (∀ (e2 : MockValue) (retErr : Option CadenceError),
        fnType.numOut = 2 → readErrSlot e2 = some retErr →
        (isNilableKind fnType.out0.kind = true →
          executeMock assignableTo encodeArg fnType [.nilVal, e2] =
            .returned none retErr) ∧
        (isNilableKind fnType.out0.kind = false →
          executeMock assignableTo encodeArg fnType [.nilVal, e2] =
            .panicked "mock has incorrect return type, nil not allowed")) := by
  refine ⟨?_, ?_, ?_⟩
  · intro first rest hfn hlen
    cases first with
    | nilVal =>
      simp only [executeMock]
      rw [if_pos hlen]
    | errVal t e =>
      simp only [executeMock]
      rw [if_pos hlen]
    | fnVal t => exact absurd rfl (hfn t)
    | plainVal t =>
      simp only [executeMock]
      rw [if_pos hlen]
  · intro t e2 retErr hnum herr hassign
    simp [executeMock, hnum, herr, hassign]
  · intro e2 retErr hnum herr
    constructor
    · intro hnil
      simp [executeMock, hnum, herr, hnil]
    · intro hnil
      simp [executeMock, hnum, herr, hnil]

theorem execute_mock_validation_witness :
    executeMock (fun a b => decide (a = b)) (fun t => some [t.uid])
        ⟨0, 2, ⟨.otherKind, 5⟩⟩ [.plainVal ⟨.otherKind, 5⟩] =
      .panicked "mock has incorrect number of returns" ∧
    executeMock (fun a b => decide (a = b)) (fun t => some [t.uid])
        ⟨0, 2, ⟨.otherKind, 5⟩⟩ [.plainVal ⟨.otherKind, 7⟩, .nilVal] =
      .panicked "mock has incorrect return type, not assignable" ∧
    executeMock (fun a b => decide (a = b)) (fun t => some [t.uid])
        ⟨1, 2, ⟨.ptr, 9⟩⟩ [.nilVal, .nilVal] = .returned none none ∧
    executeMock (fun a b => decide (a = b)) (fun t => some [t.uid])
        ⟨0, 2, ⟨.otherKind, 5⟩⟩ [.nilVal, .nilVal] =
      .panicked "mock has incorrect return type, nil not allowed" :=
  ⟨(execute_mock_validation (fun a b => decide (a = b)) (fun t => some [t.uid])
        ⟨0, 2, ⟨.otherKind, 5⟩⟩).1
      (.plainVal ⟨.otherKind, 5⟩) [] (fun t h => nomatch h) (by decide),
    (execute_mock_validation (fun a b => decide (a = b)) (fun t => some [t.uid])
        ⟨0, 2, ⟨.otherKind, 5⟩⟩).2.1
      ⟨.otherKind, 7⟩ .nilVal none rfl rfl (by decide),
    ((execute_mock_validation (fun a b => decide (a = b)) (fun t => some [t.uid])
        ⟨1, 2, ⟨.ptr, 9⟩⟩).2.2 .nilVal none rfl rfl).1 rfl,
    ((execute_mock_validation (fun a b => decide (a = b)) (fun t => some [t.uid])
        ⟨0, 2, ⟨.otherKind, 5⟩⟩).2.2 .nilVal none rfl rfl).2 rfl⟩

end CadenceTest
